import Mathlib

set_option maxHeartbeats 1000000

namespace VerifiableGame

/-! Shallow embedding of the automated game-master daemon
(`gameStateManager.js`, `contractService.js`, `gameServer.js`, `utils.js`,
`fileService.js`, `constants.js`, and the orchestrator entry file).
Pure slices of the JavaScript are translated into executable Lean
definitions; chain reads, file loads and transaction outcomes appear as
explicit inputs of the corresponding step functions. Definitions come
first, followed by all theorems. -/

/-- Game phases from `constants.js` (`GamePhase`). -/
inductive GamePhase where
  | CREATED
  | COMMITTED
  | CLOSED
  | GAME_RUNNING
  | GAME_FINISHED
  | PAYOUT_COMPLETE
  | COMPLETE
deriving DecidableEq

/-- Tile values of the map grid: `0` depleted, `1` common, `2` uncommon,
`3` rare, and the starting-position marker stored as the string "X" in the
JavaScript land arrays. -/
inductive Tile where
  | t0
  | t1
  | t2
  | t3
  | tX
deriving DecidableEq

/-- `MAX_MOVES` from constants.js. -/
def MAX_MOVES : Nat := 12

/-- `MAX_MINES` from constants.js. -/
def MAX_MINES : Nat := 3

/-- `GAME_TIMER_DURATION` (seconds) from constants.js. -/
def GAME_TIMER_DURATION : Nat := 90

/-- `TILE_POINTS` from constants.js: depleted 0, common 1, uncommon 5,
rare 10, starting marker 25. -/
def TILE_POINTS : Tile → Nat
  | Tile.t0 => 0
  | Tile.t1 => 1
  | Tile.t2 => 5
  | Tile.t3 => 10
  | Tile.tX => 25

/-- `DIRECTIONS` from constants.js: the eight compass directions with
their unit vectors (x grows east, y grows south). -/
def DIRECTIONS (s : String) : Option (Int × Int) :=
  if s = "north" then some (0, -1)
  else if s = "south" then some (0, 1)
  else if s = "east" then some (1, 0)
  else if s = "west" then some (-1, 0)
  else if s = "northeast" then some (1, -1)
  else if s = "northwest" then some (-1, -1)
  else if s = "southeast" then some (1, 1)
  else if s = "southwest" then some (-1, 1)
  else none

/-- ASCII model of JavaScript's `toLowerCase()` on one character (all
strings the server lower-cases — addresses and direction names — are
ASCII). -/
def jsLowerChar (c : Char) : Char :=
  if 'A' ≤ c ∧ c ≤ 'Z' then Char.ofNat (c.toNat + 32) else c

/-- `.toLowerCase()` over the string's characters. -/
def jsToLower (s : String) : String :=
  ⟨s.data.map jsLowerChar⟩

/-- Whitespace removed by `.trim()` (ASCII subset). -/
def isJsWhitespace (c : Char) : Bool :=
  c = ' ' ∨ c = '\t' ∨ c = '\n' ∨ c = '\r'

/-- `.trim()`: drop whitespace from both ends. -/
def jsTrim (s : String) : String :=
  ⟨((s.data.dropWhile isJsWhitespace).reverse.dropWhile isJsWhitespace).reverse⟩

/-- `split(" ")` on the character list: split at every single space. -/
def splitOnSpaceAux : List Char → List (List Char)
  | [] => [[]]
  | c :: rest =>
    let r := splitOnSpaceAux rest
    if c = ' ' then [] :: r
    else (c :: r.headD []) :: r.tail

/-- JavaScript `s.split(" ")`. -/
def jsSplitOnSpace (s : String) : List String :=
  (splitOnSpaceAux s.data).map (fun l => ⟨l⟩)

/-- JavaScript's `%` on integers: remainder with the sign of the
dividend. -/
def jsRemainder (a n : Int) : Int :=
  if 0 ≤ a then a % n else -((-a) % n)

/-- `wrapCoordinate` from gameServer.js line 86:
`((coord % size) + size) % size` with JavaScript remainder. -/
def wrapCoordinate (coord : Int) (size : Nat) : Int :=
  jsRemainder (jsRemainder coord (size : Int) + (size : Int)) (size : Int)

/-- One player record of the persisted scores artifact
(`saved/scores_<gameId>.txt`, written by `saveGameScores` from
`getCurrentPlayerData` snapshots). -/
structure ScoreRec where
  address : String
  score : Nat
  movesRemaining : Nat
  minesRemaining : Nat
  tile : Tile
deriving DecidableEq

/-- The per-player finished test used by `updateGameState`
(gameStateManager.js line 78): `p.minesRemaining === 0 ||
(p.movesRemaining === 0 && p.tile === 0)`. -/
def playerFinished (p : ScoreRec) : Bool :=
  p.minesRemaining == 0 || (p.movesRemaining == 0 && p.tile == Tile.t0)

/-- `playerScores.every(...)` over the finished test. -/
def allPlayersFinished (ps : List ScoreRec) : Bool :=
  ps.all playerFinished

/-- Phase computation of `updateGameState` (gameStateManager.js lines
70-108), as a function of the chain flags, the scores-artifact load result
(`none` models `loadGameScores` throwing), the active-server registry and
the locally stored skip flags. -/
def updateGameStatePhase (hasRevealed hasPaidOut hasClosed hasCommitted hasStoredBlockHash : Bool)
    (scores : Option (List ScoreRec)) (activeGameServer : Option Nat) (gameId : Nat)
    (payoutSkipped revealSkipped : Bool) : GamePhase :=
  let base :=
    if hasRevealed then GamePhase.COMPLETE
    else if hasPaidOut then GamePhase.PAYOUT_COMPLETE
    else if hasClosed && hasCommitted && hasStoredBlockHash then
      match scores with
      | some ps =>
        if allPlayersFinished ps then GamePhase.GAME_FINISHED
        else if activeGameServer = some gameId then GamePhase.GAME_RUNNING
        else GamePhase.CLOSED
      | none =>
        if activeGameServer = some gameId then GamePhase.GAME_RUNNING
        else GamePhase.CLOSED
    else if hasCommitted then GamePhase.COMMITTED
    else GamePhase.CREATED
  let pinnedPayout :=
    if payoutSkipped ∧ base = GamePhase.GAME_FINISHED then GamePhase.PAYOUT_COMPLETE else base
  if revealSkipped ∧ pinnedPayout = GamePhase.PAYOUT_COMPLETE then GamePhase.COMPLETE
  else pinnedPayout

/-- Whether the scores artifact exists (spec condition `scoresExist`). -/
def scoresExist (scores : Option (List ScoreRec)) : Bool :=
  scores.isSome

/-- The spec's `allPlayersFinished` condition over the artifact; false when
the artifact is absent. -/
def allFinishedArtifact (scores : Option (List ScoreRec)) : Bool :=
  match scores with
  | some ps => allPlayersFinished ps
  | none => false

/-- The phase decision table of spec section 4.7, rows read top to bottom,
followed by the two pin rules for the locally stored skip flags. -/
def specPhaseTable (hasRevealed hasPaidOut hasClosed hasCommitted hasStoredBlockHash : Bool)
    (scores : Option (List ScoreRec)) (activeGameServer : Option Nat) (gameId : Nat)
    (payoutSkipped revealSkipped : Bool) : GamePhase :=
  let hcs := hasClosed && hasCommitted && hasStoredBlockHash
  let base :=
    if hasRevealed then GamePhase.COMPLETE
    else if hasPaidOut then GamePhase.PAYOUT_COMPLETE
    else if hcs && scoresExist scores && allFinishedArtifact scores then GamePhase.GAME_FINISHED
    else if hcs ∧ activeGameServer = some gameId then GamePhase.GAME_RUNNING
    else if hcs then GamePhase.CLOSED
    else if hasCommitted then GamePhase.COMMITTED
    else GamePhase.CREATED
  let pinnedPayout :=
    if payoutSkipped ∧ base = GamePhase.GAME_FINISHED then GamePhase.PAYOUT_COMPLETE else base
  if revealSkipped ∧ pinnedPayout = GamePhase.PAYOUT_COMPLETE then GamePhase.COMPLETE
  else pinnedPayout

/-- One entry of the scores list as consumed by `payoutGame`
(address and score are the only fields it reads). -/
structure PayoutEntry where
  address : String
  score : Nat
deriving DecidableEq

/-- `Math.max(...playerScores.map((p) => p.score))` from
contractService.js line 302, as a fold over the mapped scores (scores are
non-negative integers, so the zero seed does not change the maximum of a
non-empty list). -/
def highestScore (ps : List PayoutEntry) : Nat :=
  (ps.map (fun p => p.score)).foldl max 0

/-- The winners computed by `payoutGame` (contractService.js lines
302-305): the addresses of the entries whose score equals the highest
score. -/
def payoutWinners (ps : List PayoutEntry) : List String :=
  (ps.filter (fun p => p.score == highestScore ps)).map (fun p => p.address)

/-- Per-player stats held in the `playerStats` map of a
GameServerInstance. -/
structure PlayerStats where
  score : Nat
  movesRemaining : Nat
  minesRemaining : Nat
deriving DecidableEq

/-- In-memory state of one game-server instance: the map size, the land
grid (as a function of the x and y indices used by the JavaScript array
accesses `land[y][x]`), and the `playerPositions` and `playerStats` maps,
both keyed by lower-cased address. -/
structure ServerState where
  size : Nat
  land : Int → Int → Tile
  playerPositions : List (String × (Int × Int))
  playerStats : List (String × PlayerStats)

/-- `Map.set` on an association list: overwrite the entry if the key is
present, else append. -/
def setEntry {α : Type} : List (String × α) → String → α → List (String × α)
  | [], k, v => [(k, v)]
  | (k', v') :: rest, k, v =>
      if k' = k then (k, v) :: rest else (k', v') :: setEntry rest k v

/-- A request-body `direction` value: a JSON string, or any non-string
value together with its JavaScript truthiness (the handler distinguishes
non-strings only through `!direction` and a `typeof` check). -/
inductive JsVal where
  | str (s : String)
  | nonString (truthy : Bool)
deriving DecidableEq

/-- JavaScript truthiness test `!direction` on a present body value: among
strings only the empty string is falsy. -/
def jsValFalsy : JsVal → Bool
  | JsVal.str s => s == ""
  | JsVal.nonString t => !t

/-- Failure cases of `GameServerInstance.movePlayer`, one per early-return
error string. -/
inductive MoveErr where
  | playerNotFound
  | playerStatsNotFound
  | noMovesRemaining
  | directionNotAString
  | invalidDirection
deriving DecidableEq

/-- Success payload of `movePlayer`. -/
structure MoveOk where
  newX : Int
  newY : Int
  tile : Tile
  movesRemaining : Nat
  minesRemaining : Nat
  score : Nat
deriving DecidableEq

/-- Result value of `movePlayer`. -/
inductive MoveOutcome where
  | err (e : MoveErr)
  | ok (r : MoveOk)
deriving DecidableEq

/-- `direction.toLowerCase().trim()` from movePlayer. -/
def normalizeDirection (d : String) : String :=
  jsTrim (jsToLower d)

/-- `GameServerInstance.movePlayer` (gameServer.js lines 309-356). The
checks run in source order: position lookup, stats lookup, move budget,
string type, direction validity; on success the position is wrapped onto
the torus and the move budget decremented. -/
def movePlayer (st : ServerState) (playerAddress : String) (direction : JsVal) :
    MoveOutcome × ServerState :=
  let key := jsToLower playerAddress
  match st.playerPositions.lookup key with
  | none => (MoveOutcome.err MoveErr.playerNotFound, st)
  | some currentPos =>
    match st.playerStats.lookup key with
    | none => (MoveOutcome.err MoveErr.playerStatsNotFound, st)
    | some stats =>
      if stats.movesRemaining = 0 then (MoveOutcome.err MoveErr.noMovesRemaining, st)
      else
        match direction with
        | JsVal.nonString _ => (MoveOutcome.err MoveErr.directionNotAString, st)
        | JsVal.str d =>
          match DIRECTIONS (normalizeDirection d) with
          | none => (MoveOutcome.err MoveErr.invalidDirection, st)
          | some dirVector =>
            let newX := wrapCoordinate (currentPos.1 + dirVector.1) st.size
            let newY := wrapCoordinate (currentPos.2 + dirVector.2) st.size
            let stats' : PlayerStats :=
              { stats with movesRemaining := stats.movesRemaining - 1 }
            let st' : ServerState :=
              { st with
                playerPositions := setEntry st.playerPositions key (newX, newY)
                playerStats := setEntry st.playerStats key stats' }
            (MoveOutcome.ok
              { newX := newX, newY := newY, tile := st.land newX newY,
                movesRemaining := stats'.movesRemaining,
                minesRemaining := stats.minesRemaining, score := stats.score }, st')

/-- Failure cases of `GameServerInstance.minePlayer`. -/
inductive MineErr where
  | playerNotFound
  | playerStatsNotFound
  | noMinesRemaining
  | tileAlreadyMined
deriving DecidableEq

/-- Success payload of `minePlayer`. -/
structure MineOk where
  posX : Int
  posY : Int
  tile : Tile
  pointsEarned : Nat
  totalScore : Nat
  minesRemaining : Nat
  movesRemaining : Nat
deriving DecidableEq

/-- Result value of `minePlayer`. -/
inductive MineOutcome where
  | err (e : MineErr)
  | ok (r : MineOk)
deriving DecidableEq

/-- `GameServerInstance.minePlayer` (gameServer.js lines 358-394): mine
budget check, depleted-tile check, then score the tile's points, decrement
the mine budget and set the mined tile to 0. -/
def minePlayer (st : ServerState) (playerAddress : String) : MineOutcome × ServerState :=
  let key := jsToLower playerAddress
  match st.playerPositions.lookup key with
  | none => (MineOutcome.err MineErr.playerNotFound, st)
  | some currentPos =>
    match st.playerStats.lookup key with
    | none => (MineOutcome.err MineErr.playerStatsNotFound, st)
    | some stats =>
      if stats.minesRemaining = 0 then (MineOutcome.err MineErr.noMinesRemaining, st)
      else
        let currentTile := st.land currentPos.1 currentPos.2
        if currentTile = Tile.t0 then (MineOutcome.err MineErr.tileAlreadyMined, st)
        else
          let pointsEarned := TILE_POINTS currentTile
          let stats' : PlayerStats :=
            { score := stats.score + pointsEarned
              movesRemaining := stats.movesRemaining
              minesRemaining := stats.minesRemaining - 1 }
          let st' : ServerState :=
            { st with
              playerStats := setEntry st.playerStats key stats'
              land := fun x y =>
                if x = currentPos.1 ∧ y = currentPos.2 then Tile.t0 else st.land x y }
          (MineOutcome.ok
            { posX := currentPos.1, posY := currentPos.2, tile := currentTile,
              pointsEarned := pointsEarned, totalScore := stats'.score,
              minesRemaining := stats'.minesRemaining,
              movesRemaining := stats.movesRemaining }, st')

/-- Error payloads of the `POST /move` handler (gameServer.js lines
531-565): all map to HTTP 400. -/
inductive MoveRespErr where
  | directionRequired
  | timeExpired
  | fromMove (e : MoveErr)
deriving DecidableEq

/-- Response of the `POST /move` handler. -/
inductive MoveResp where
  | badRequest (e : MoveRespErr)
  | ok (r : MoveOk)
deriving DecidableEq

/-- The `POST /move` handler (gameServer.js lines 531-565): `!direction`
check, then the wall-clock timer check (`getTimeRemaining() <= 0`), then
`movePlayer`. `timeRemaining` models `this.getTimeRemaining()`, which is
clamped at 0. -/
def moveEndpoint (st : ServerState) (playerAddress : String)
    (direction : Option JsVal) (timeRemaining : Nat) : MoveResp × ServerState :=
  match direction with
  | none => (MoveResp.badRequest MoveRespErr.directionRequired, st)
  | some d =>
    if jsValFalsy d then (MoveResp.badRequest MoveRespErr.directionRequired, st)
    else if timeRemaining = 0 then (MoveResp.badRequest MoveRespErr.timeExpired, st)
    else
      match movePlayer st playerAddress d with
      | (MoveOutcome.err e, st') => (MoveResp.badRequest (MoveRespErr.fromMove e), st')
      | (MoveOutcome.ok r, st') => (MoveResp.ok r, st')

/-- Outcome of one payout transaction attempt as seen by `payoutGame`:
receipt success, receipt with failure status, or a thrown error
(insufficient funds or anything else). -/
inductive TxOutcome where
  | success
  | receiptFailed
  | insufficientFunds
  | otherError
deriving DecidableEq

/-- Retry bookkeeping and game-record fields touched by `payoutGame`: the
`payoutRetryCount` and `payoutLastRetryTime` entries (a deleted entry is
read back as 0) and the `payoutSkipped` flag and phase of the game
record. -/
structure PayoutState where
  retryCount : Nat
  lastRetryTime : Nat
  payoutSkipped : Bool
  phase : GamePhase
deriving DecidableEq

/-- Observable result of one `payoutGame` call: its boolean return value,
whether a payout transaction was submitted, the winners submitted, and the
updated bookkeeping. -/
structure PayoutStepOut where
  returned : Bool
  attemptedTx : Bool
  winners : List String
  state : PayoutState
deriving DecidableEq

/-- `MAX_RETRIES` of payoutGame. -/
def MAX_PAYOUT_RETRIES : Nat := 10

/-- The gating backoff of `payoutGame` (contractService.js lines 262-265
and 292, also recomputed by `processGamePhase`):
`min(5000 * 2^(retryCount-1), 300000)` milliseconds. -/
def payoutRetryBackoffMs (retryCount : Nat) : Nat :=
  min (5000 * 2 ^ (retryCount - 1)) 300000

/-- The backoff printed by the insufficient-funds handler of `payoutGame`
(contractService.js line 376): `min(10000 * 2^retryCount, 600000)`
milliseconds. It is only logged; the next attempt is gated by
`payoutRetryBackoffMs`. -/
def insufficientFundsLoggedBackoffMs (retryCount : Nat) : Nat :=
  min (10000 * 2 ^ retryCount) 600000

/-- One `payoutGame` call (contractService.js lines 233-390) as a step
function. `hasPaidOut` is the chain read, `scores` the `loadGameScores`
result (`none` models a throw), `txOutcome` what the submitted transaction
would do. Source order: already-paid check, retry-exhaustion check,
backoff gate, scores load, empty-scores check, winner computation,
transaction. -/
def payoutGameStep (hasPaidOut : Bool) (now : Nat) (scores : Option (List PayoutEntry))
    (txOutcome : TxOutcome) (st : PayoutState) : PayoutStepOut :=
  if hasPaidOut then ⟨true, false, [], st⟩
  else if MAX_PAYOUT_RETRIES ≤ st.retryCount then
    ⟨true, false, [],
      { retryCount := 0, lastRetryTime := 0, payoutSkipped := true,
        phase := GamePhase.PAYOUT_COMPLETE }⟩
  else if 0 < st.retryCount ∧ now - st.lastRetryTime < payoutRetryBackoffMs st.retryCount then
    ⟨false, false, [], st⟩
  else
    match scores with
    | none =>
      ⟨false, false, [], { st with retryCount := st.retryCount + 1, lastRetryTime := now }⟩
    | some ps =>
      if ps = [] then ⟨false, false, [], st⟩
      else
        match txOutcome with
        | TxOutcome.success =>
            ⟨true, true, payoutWinners ps, { st with retryCount := 0, lastRetryTime := 0 }⟩
        | _ =>
            ⟨false, true, payoutWinners ps,
              { st with retryCount := st.retryCount + 1, lastRetryTime := now }⟩

/-- `MAX_BLOCK_AGE` from `isGameTooOldToStart` in utils.js. -/
def MAX_BLOCK_AGE : Nat := 240

/-- The pure core of `isGameTooOldToStart` (utils.js lines 53-93): given
the chain reads, report whether the commit block is considered too old
(`blocksDiff > MAX_BLOCK_AGE`). -/
def isGameTooOldToStart (hasCommitted : Bool) (commitBlockNumber currentBlockNumber : Nat) :
    Bool :=
  if !hasCommitted then false
  else decide ((currentBlockNumber : Int) - (commitBlockNumber : Int) > (MAX_BLOCK_AGE : Int))

/-- The fields written by `markGameAsExpired` (utils.js lines 96-118). -/
structure ExpiredMark where
  phase : GamePhase
  expired : Bool
deriving DecidableEq

/-- `markGameAsExpired` sets phase COMPLETE and the expired flag. -/
def markGameAsExpired : ExpiredMark :=
  ⟨GamePhase.COMPLETE, true⟩

/-- Decision of the precondition gates at the top of `startGameServer`
(orchestrator entry file lines 75-104). -/
inductive StartGateResult where
  | markedExpired
  | proceed
deriving DecidableEq

/-- The first two gates of `startGameServer`: a too-old game and an
unavailable block hash are both marked expired; otherwise server startup
proceeds. -/
def startGameServerGate (tooOld blockHashAvailable : Bool) : StartGateResult :=
  if tooOld then StartGateResult.markedExpired
  else if !blockHashAvailable then StartGateResult.markedExpired
  else StartGateResult.proceed

/-- `authHeader && authHeader.split(" ")[1]` from `authenticateToken`
(gameServer.js lines 259-261): the bearer token is the second
space-separated word of the header; an absent header, an empty header, or
a missing or empty second word all leave the token falsy. -/
def extractBearerToken (authHeader : Option String) : Option String :=
  match authHeader with
  | none => none
  | some h =>
    if h = "" then none
    else
      match (jsSplitOnSpace h).get? 1 with
      | none => none
      | some t => if t = "" then none else some t

/-- Result of one `authenticateToken` middleware run. -/
inductive AuthResult where
  | missingToken
  | invalidToken
  | notAPlayer
  | authorized (playerAddress : String)
deriving DecidableEq

/-- `GameServerInstance.authenticateToken` (gameServer.js lines 259-279).
`verify` models `jwt.verify` with the server secret (the decoded address
on success, `none` on an invalid or expired token); `isValidPlayer` is the
current player-set membership check. -/
def authenticateToken (authHeader : Option String) (verify : String → Option String)
    (isValidPlayer : String → Bool) : AuthResult :=
  match extractBearerToken authHeader with
  | none => AuthResult.missingToken
  | some token =>
    match verify token with
    | none => AuthResult.invalidToken
    | some addr =>
      if isValidPlayer addr then AuthResult.authorized addr else AuthResult.notAPlayer

/-- HTTP status sent for each `authenticateToken` outcome: 401 for a
missing token, 403 for a failed `jwt.verify` and for a non-player, 200
(continue) otherwise. -/
def authHttpStatus : AuthResult → Nat
  | AuthResult.missingToken => 401
  | AuthResult.invalidToken => 403
  | AuthResult.notAPlayer => 403
  | AuthResult.authorized _ => 200

/-- Phase effect of one `monitorGameProgressWrapper` run (orchestrator
entry file lines 293-315): early return when `getCurrentPlayerData` is
empty, otherwise save scores and move to GAME_FINISHED when every player
is finished. -/
structure MonitorOut where
  phase : GamePhase
  scoresSaved : Bool
deriving DecidableEq

/-- The wrapper's phase computation over the live player snapshot. -/
def monitorGameProgressWrapperStep (playerData : List ScoreRec) (phase : GamePhase) :
    MonitorOut :=
  if playerData.length = 0 then ⟨phase, false⟩
  else if allPlayersFinished playerData then ⟨GamePhase.GAME_FINISHED, true⟩
  else ⟨phase, false⟩

/-- `calculateRandomHash` (fileService.js lines 45-76): the random hash is
`keccak256(concat([commitBlockHash, revealValue]))`. Byte strings are
lists of byte values and `keccak256` is passed in as the hash function. -/
def calculateRandomHash (keccak256 : List Nat → List Nat)
    (commitBlockHash revealValue : List Nat) : List Nat :=
  keccak256 (commitBlockHash ++ revealValue)

/-- Hex-nibble stream of a byte string, high nibble first: the entropy
view the dice take of a `0x`-prefixed hash string with the prefix
stripped. -/
def bytesToNibbles (bytes : List Nat) : List Nat :=
  bytes.foldr (fun b acc => b / 16 :: b % 16 :: acc) []

/-- Modelled from the spec: the `deterministic-map` package's
`DeterministicDice` is not under src (only its prototype and callers are);
spec section 4.1: entropy is a hex-nibble stream, `Roll(k)` combines `k`
nibbles as `r = (r<<4) + nibble`, and an exhausted buffer is replaced by
its rehash with the cursor reset to 0. `rehash` stands for sha256 on the
entropy. -/
structure DiceState where
  entropy : List Nat
  position : Nat
deriving DecidableEq

/-- Dice seeded from a nibble stream, cursor at 0. -/
def diceInit (seedNibbles : List Nat) : DiceState :=
  ⟨seedNibbles, 0⟩

/-- Draw one nibble, rehashing first when the buffer is exhausted. -/
def diceDrawNibble (rehash : List Nat → List Nat) (d : DiceState) : Nat × DiceState :=
  if d.entropy.length ≤ d.position then
    let e := rehash d.entropy
    (((e.get? 0).getD 0), ⟨e, 1⟩)
  else
    (((d.entropy.get? d.position).getD 0), ⟨d.entropy, d.position + 1⟩)

/-- `Roll(count)` accumulator loop. -/
def diceRollAux (rehash : List Nat → List Nat) (acc : Nat) (d : DiceState) :
    Nat → Nat × DiceState
  | 0 => (acc, d)
  | Nat.succ k =>
    let p := diceDrawNibble rehash d
    diceRollAux rehash (acc * 16 + p.1) p.2 k

/-- `Roll(count)`: combine `count` nibbles. -/
def diceRoll (rehash : List Nat → List Nat) (d : DiceState) (count : Nat) :
    Nat × DiceState :=
  diceRollAux rehash 0 d count

/-- Modelled from the spec (section 4.1): rolls 0-10 give common, 11-14
uncommon, 15 rare. -/
def rollToTile (roll : Nat) : Tile :=
  if roll ≤ 10 then Tile.t1 else if roll ≤ 14 then Tile.t2 else Tile.t3

/-- Generate `count` tiles in row-major order, one roll of one nibble
each. -/
def generateTiles (rehash : List Nat → List Nat) (d : DiceState) :
    Nat → List Tile × DiceState
  | 0 => ([], d)
  | Nat.succ k =>
    let p := diceRoll rehash d 1
    let rest := generateTiles rehash p.2 k
    (rollToTile p.1 :: rest.1, rest.2)

/-- Modelled from the spec: generated map of the `deterministic-map`
package's `GameLandGenerator` — a `size × size` row-major grid, then two
2-nibble rolls for the starting position `(x mod size, y mod size)`, whose
original tile is remembered and overwritten with the marker. -/
structure GeneratedMap where
  size : Nat
  cells : List Tile
  startX : Nat
  startY : Nat
  originalLandType : Tile
deriving DecidableEq

/-- `generateLand()` followed by `placeStartingPosition()` on dice seeded
with the given nibble stream. -/
def generateMap (rehash : List Nat → List Nat) (seedNibbles : List Nat) (size : Nat) :
    GeneratedMap :=
  let d0 := diceInit seedNibbles
  let t := generateTiles rehash d0 (size * size)
  let px := diceRoll rehash t.2 2
  let x := px.1 % size
  let py := diceRoll rehash px.2 2
  let y := py.1 % size
  let idx := y * size + x
  let original := (t.1.get? idx).getD Tile.t0
  { size := size, cells := t.1.set idx Tile.tX, startX := x, startY := y,
    originalLandType := original }

/-- Result of the map-and-players setup slice of `startGameServer`. -/
structure GameSetup where
  randomHash : List Nat
  map : GeneratedMap
  startingPositions : List (String × (Nat × Nat))
deriving DecidableEq

/-- The randomness slice of `startGameServer` (orchestrator entry file
lines 166-192) and `GameServerInstance.startServer` plus
`loadPlayersFromContract` (gameServer.js lines 182-229 and 645-652): the
random hash is computed from the commit block hash and the persisted
reveal, the dice are seeded with it (not with the raw reveal), the map is
generated, and each player's starting cell is drawn from the same random
hash. `posGen` models the `deterministic-map` package's
`PlayerPositionGenerator.generateStartingPosition`, per spec section 4.5 a
total function of the seed, address, gameId and mapSize. -/
def startGameSetup (keccak256 rehash : List Nat → List Nat)
    (posGen : List Nat → String → Nat → Nat → Nat × Nat)
    (commitBlockHash revealValue : List Nat)
    (gameId mapSize : Nat) (players : List String) : GameSetup :=
  let randomHash := calculateRandomHash keccak256 commitBlockHash revealValue
  let map := generateMap rehash (bytesToNibbles randomHash) mapSize
  let startingPositions := players.map (fun a => (a, posGen randomHash a gameId mapSize))
  { randomHash := randomHash, map := map, startingPositions := startingPositions }

/-- Concrete server state used by witnesses: a 5×5 game with two players
standing on the same rare tile. -/
def exState : ServerState :=
  { size := 5
    land := fun x y => if x = 1 ∧ y = 2 then Tile.t3 else Tile.t1
    playerPositions := [("alice", (1, 2)), ("bob", (1, 2))]
    playerStats := [("alice", ⟨0, 12, 3⟩), ("bob", ⟨0, 12, 3⟩)] }

/-- Concrete server state used by witnesses: a player whose move budget is
exhausted. -/
def exStateNoMoves : ServerState :=
  { size := 5
    land := fun _ _ => Tile.t1
    playerPositions := [("carol", (0, 0))]
    playerStats := [("carol", ⟨7, 0, 2⟩)] }

theorem jsRemainder_emod (c n : Int) : jsRemainder c n % n = c % n := by
  unfold jsRemainder
  split
  · exact Int.emod_emod_of_dvd c dvd_rfl
  · have h : -(-c % n) = c + (-c / n) * n := by
      rw [Int.emod_def]; ring
    rw [h, Int.add_mul_emod_self]

theorem jsRemainder_add_nonneg (c n : Int) (hn : 0 < n) : 0 ≤ jsRemainder c n + n := by
  unfold jsRemainder
  split
  · have := Int.emod_nonneg c (ne_of_gt hn)
    omega
  · have h2 : -c % n < n := Int.emod_lt_of_pos (-c) hn
    omega

theorem jsRemainder_of_nonneg (a n : Int) (h : 0 ≤ a) : jsRemainder a n = a % n := by
  unfold jsRemainder
  rw [if_pos h]

theorem wrapCoordinate_eq_emod (c : Int) (size : Nat) (h : 0 < size) :
    wrapCoordinate c size = c % (size : Int) := by
  have hn : (0 : Int) < (size : Int) := by exact_mod_cast h
  have h1 : 0 ≤ jsRemainder c (size : Int) + (size : Int) := jsRemainder_add_nonneg c _ hn
  unfold wrapCoordinate
  rw [jsRemainder_of_nonneg _ _ h1]
  have h2 : jsRemainder c (size : Int) + (size : Int)
      = jsRemainder c (size : Int) + 1 * (size : Int) := by ring
  rw [h2, Int.add_mul_emod_self, jsRemainder_emod]

theorem lookup_setEntry_self {α : Type} (m : List (String × α)) (k : String) (v : α) :
    (setEntry m k v).lookup k = some v := by
  induction m with
  | nil => simp [setEntry, List.lookup]
  | cons p rest ih =>
    obtain ⟨k', v'⟩ := p
    by_cases h : k' = k
    · subst h
      simp [setEntry, List.lookup]
    · simp only [setEntry, if_neg h, List.lookup]
      have hbeq : (k == k') = false := by
        simpa using Ne.symm h
      simp [hbeq, ih]

/-- C1: on every state-machine tick, the phase computed by
`updateGameState` over the chain flags, the scores artifact and the
active-server registry equals the spec's decision table (hasRevealed gives
COMPLETE; else hasPaidOut gives PAYOUT_COMPLETE; else closed, committed
and stored block hash with an all-finished scores artifact gives
GAME_FINISHED, with this server active gives GAME_RUNNING, otherwise
CLOSED; else hasCommitted gives COMMITTED; else CREATED), with
payoutSkipped rewriting GAME_FINISHED to PAYOUT_COMPLETE and revealSkipped
rewriting PAYOUT_COMPLETE to COMPLETE. -/
theorem updateGameStatePhase_eq_specPhaseTable
    (hr hp hc hcm hsb : Bool) (scores : Option (List ScoreRec))
    (ags : Option Nat) (gid : Nat) (psk rsk : Bool) :
    updateGameStatePhase hr hp hc hcm hsb scores ags gid psk rsk =
      specPhaseTable hr hp hc hcm hsb scores ags gid psk rsk := by
  cases hr <;> cases hp <;> cases hc <;> cases hcm <;> cases hsb <;>
    cases scores <;>
      simp only [updateGameStatePhase, specPhaseTable, scoresExist, allFinishedArtifact,
        Bool.and_self, Bool.and_true, Bool.and_false, Bool.true_and, Bool.false_and,
        Option.isSome_some, Option.isSome_none, if_true, if_false] <;>
      split_ifs <;> simp_all

theorem le_foldl_max (l : List Nat) (acc : Nat) : acc ≤ l.foldl max acc := by
  induction l generalizing acc with
  | nil => simp
  | cons x xs ih => exact le_trans (le_max_left acc x) (ih (max acc x))

theorem mem_le_foldl_max (l : List Nat) (acc : Nat) (x : Nat) (hx : x ∈ l) :
    x ≤ l.foldl max acc := by
  induction l generalizing acc with
  | nil => cases hx
  | cons y ys ih =>
    rcases List.mem_cons.mp hx with h | h
    · subst h
      exact le_trans (le_max_right acc x) (le_foldl_max ys (max acc x))
    · exact ih (max acc y) h

theorem foldl_max_acc_or_mem (l : List Nat) (acc : Nat) :
    l.foldl max acc = acc ∨ l.foldl max acc ∈ l := by
  induction l generalizing acc with
  | nil => exact Or.inl rfl
  | cons x xs ih =>
    rcases ih (max acc x) with h | h
    · rcases max_choice acc x with hm | hm
      · exact Or.inl (by rw [List.foldl_cons, h, hm])
      · exact Or.inr (by rw [List.foldl_cons, h, hm]; exact List.mem_cons_self x xs)
    · exact Or.inr (List.mem_cons_of_mem x h)

theorem highestScore_ub (ps : List PayoutEntry) (q : PayoutEntry) (hq : q ∈ ps) :
    q.score ≤ highestScore ps :=
  mem_le_foldl_max _ 0 q.score (List.mem_map_of_mem (fun p => p.score) hq)

theorem highestScore_attained (ps : List PayoutEntry) (hne : ps ≠ []) :
    ∃ p ∈ ps, p.score = highestScore ps := by
  rcases foldl_max_acc_or_mem (ps.map (fun p => p.score)) 0 with h | h
  · cases ps with
    | nil => exact absurd rfl hne
    | cons p rest =>
      refine ⟨p, List.mem_cons_self p rest, ?_⟩
      have hub : p.score ≤ highestScore (p :: rest) :=
        highestScore_ub _ p (List.mem_cons_self p rest)
      have hz : highestScore (p :: rest) = 0 := h
      omega
  · rcases List.mem_map.mp h with ⟨p, hp, hps⟩
    exact ⟨p, hp, hps⟩

/-- C2: for every non-empty final-scores list, the winners submitted by
`payoutGame` are exactly the addresses of the players whose score is
maximal over the list: every maximal scorer is included and no player with
a lower score is. -/
theorem payoutWinners_exactly_max_scorers (ps : List PayoutEntry) (hne : ps ≠ [])
    (a : String) :
    a ∈ payoutWinners ps ↔ ∃ p ∈ ps, p.address = a ∧ ∀ q ∈ ps, q.score ≤ p.score := by
  constructor
  · intro ha
    rcases List.mem_map.mp ha with ⟨p, hpf, hpa⟩
    rcases List.mem_filter.mp hpf with ⟨hp, hps⟩
    have hmax : p.score = highestScore ps := by
      simpa using hps
    exact ⟨p, hp, hpa, fun q hq => hmax ▸ highestScore_ub ps q hq⟩
  · rintro ⟨p, hp, hpa, hub⟩
    have hple : p.score ≤ highestScore ps := highestScore_ub ps p hp
    rcases highestScore_attained ps hne with ⟨r, hr, hrs⟩
    have hge : highestScore ps ≤ p.score := hrs ▸ hub r hr
    have hmax : p.score = highestScore ps := le_antisymm hple hge
    refine List.mem_map.mpr ⟨p, List.mem_filter.mpr ⟨hp, ?_⟩, hpa⟩
    simpa using hmax

/-- Witness for C2 at a concrete tied list: two players share the top
score 5 and both are winners. -/
theorem payoutWinners_exactly_max_scorers_witness :
    ([⟨"0xa", 3⟩, ⟨"0xb", 5⟩, ⟨"0xc", 5⟩] : List PayoutEntry) ≠ [] ∧
      ("0xb" ∈ payoutWinners [⟨"0xa", 3⟩, ⟨"0xb", 5⟩, ⟨"0xc", 5⟩] ↔
        ∃ p ∈ ([⟨"0xa", 3⟩, ⟨"0xb", 5⟩, ⟨"0xc", 5⟩] : List PayoutEntry),
          p.address = "0xb" ∧
            ∀ q ∈ ([⟨"0xa", 3⟩, ⟨"0xb", 5⟩, ⟨"0xc", 5⟩] : List PayoutEntry),
              q.score ≤ p.score) :=
  ⟨by decide, payoutWinners_exactly_max_scorers _ (by decide) "0xb"⟩

/-- C4: for every registered player, `minePlayer` fails with
NoMinesRemaining when the mine budget is 0, fails with TileDepleted when
the tile at the player's position is 0, and otherwise succeeds by adding
`TILE_POINTS` of the tile to the score (common 1, uncommon 5, rare 10,
starting marker 25), decrementing the mine budget by one and setting the
mined tile to 0; hence a second mine on that cell, by any player holding a
mine, returns TileDepleted. -/
theorem minePlayer_rules (st : ServerState) (addr : String) (pos : Int × Int)
    (stats : PlayerStats)
    (hpos : st.playerPositions.lookup (jsToLower addr) = some pos)
    (hstats : st.playerStats.lookup (jsToLower addr) = some stats) :
    TILE_POINTS Tile.t1 = 1 ∧ TILE_POINTS Tile.t2 = 5 ∧ TILE_POINTS Tile.t3 = 10 ∧
      TILE_POINTS Tile.tX = 25 ∧
      (stats.minesRemaining = 0 →
        minePlayer st addr = (MineOutcome.err MineErr.noMinesRemaining, st)) ∧
      (stats.minesRemaining ≠ 0 → st.land pos.1 pos.2 = Tile.t0 →
        minePlayer st addr = (MineOutcome.err MineErr.tileAlreadyMined, st)) ∧
      (stats.minesRemaining ≠ 0 → st.land pos.1 pos.2 ≠ Tile.t0 →
        (minePlayer st addr).1 =
            MineOutcome.ok
              { posX := pos.1, posY := pos.2, tile := st.land pos.1 pos.2,
                pointsEarned := TILE_POINTS (st.land pos.1 pos.2),
                totalScore := stats.score + TILE_POINTS (st.land pos.1 pos.2),
                minesRemaining := stats.minesRemaining - 1,
                movesRemaining := stats.movesRemaining } ∧
          (minePlayer st addr).2.land pos.1 pos.2 = Tile.t0 ∧
          (minePlayer st addr).2.playerStats.lookup (jsToLower addr) =
            some { score := stats.score + TILE_POINTS (st.land pos.1 pos.2),
                   movesRemaining := stats.movesRemaining,
                   minesRemaining := stats.minesRemaining - 1 } ∧
          (minePlayer st addr).2.playerPositions = st.playerPositions ∧
          ∀ (addr2 : String) (stats2 : PlayerStats),
            (minePlayer st addr).2.playerPositions.lookup (jsToLower addr2) = some pos →
            (minePlayer st addr).2.playerStats.lookup (jsToLower addr2) = some stats2 →
            stats2.minesRemaining ≠ 0 →
            (minePlayer (minePlayer st addr).2 addr2).1 =
              MineOutcome.err MineErr.tileAlreadyMined) := by
  refine ⟨rfl, rfl, rfl, rfl, ?_, ?_, ?_⟩
  · intro h0
    simp [minePlayer, hpos, hstats, h0]
  · intro h0 ht
    simp [minePlayer, hpos, hstats, h0, ht]
  · intro h0 ht
    have hmine :
        minePlayer st addr =
          (MineOutcome.ok
            { posX := pos.1, posY := pos.2, tile := st.land pos.1 pos.2,
              pointsEarned := TILE_POINTS (st.land pos.1 pos.2),
              totalScore := stats.score + TILE_POINTS (st.land pos.1 pos.2),
              minesRemaining := stats.minesRemaining - 1,
              movesRemaining := stats.movesRemaining },
            { st with
              playerStats := setEntry st.playerStats (jsToLower addr)
                { score := stats.score + TILE_POINTS (st.land pos.1 pos.2)
                  movesRemaining := stats.movesRemaining
                  minesRemaining := stats.minesRemaining - 1 }
              land := fun x y =>
                if x = pos.1 ∧ y = pos.2 then Tile.t0 else st.land x y }) := by
      simp [minePlayer, hpos, hstats, h0, ht]
    refine ⟨by rw [hmine], by rw [hmine]; simp, by rw [hmine]; simp [lookup_setEntry_self],
      by rw [hmine], ?_⟩
    intro addr2 stats2 hpos2 hstats2 h02
    rw [hmine] at hpos2 hstats2 ⊢
    simp only at hpos2 hstats2
    simp [minePlayer, hpos2, hstats2, h02]

/-- Witness for C4: a player on a rare tile with a full mine budget earns
10 points and depletes the cell. -/
theorem minePlayer_rules_witness :
    exState.playerPositions.lookup (jsToLower "ALICE") = some (1, 2) ∧
      exState.playerStats.lookup (jsToLower "ALICE") = some ⟨0, 12, 3⟩ ∧
      (PlayerStats.mk 0 12 3).minesRemaining ≠ 0 ∧
      exState.land 1 2 ≠ Tile.t0 ∧
      (minePlayer exState "ALICE").1 =
        MineOutcome.ok
          { posX := 1, posY := 2, tile := Tile.t3, pointsEarned := 10,
            totalScore := 10, minesRemaining := 2, movesRemaining := 12 } := by
  refine ⟨by decide, by decide, by decide, by decide, ?_⟩
  have h :=
    ((minePlayer_rules exState "ALICE" (1, 2) ⟨0, 12, 3⟩ (by decide) (by decide)).2.2.2.2.2.2
      (by decide) (by decide)).1
  exact h.trans (by decide)

/-- C10: for every player whose move budget is exhausted, `movePlayer`
returns NoMovesRemaining regardless of the supplied direction value, even
a value that is not a string or not in the direction set, because the
budget check precedes direction validation. -/
theorem movePlayer_budget_checked_first (st : ServerState) (addr : String)
    (pos : Int × Int) (stats : PlayerStats) (direction : JsVal)
    (hpos : st.playerPositions.lookup (jsToLower addr) = some pos)
    (hstats : st.playerStats.lookup (jsToLower addr) = some stats)
    (hmoves : stats.movesRemaining = 0) :
    movePlayer st addr direction = (MoveOutcome.err MoveErr.noMovesRemaining, st) := by
  simp [movePlayer, hpos, hstats, hmoves]

/-- Witness for C10: a non-string direction value against an exhausted
move budget still reports NoMovesRemaining. -/
theorem movePlayer_budget_checked_first_witness :
    exStateNoMoves.playerPositions.lookup (jsToLower "carol") = some (0, 0) ∧
      exStateNoMoves.playerStats.lookup (jsToLower "carol") = some ⟨7, 0, 2⟩ ∧
      (PlayerStats.mk 7 0 2).movesRemaining = 0 ∧
      movePlayer exStateNoMoves "carol" (JsVal.nonString true) =
        (MoveOutcome.err MoveErr.noMovesRemaining, exStateNoMoves) :=
  ⟨by decide, by decide, rfl,
    movePlayer_budget_checked_first exStateNoMoves "carol" (0, 0) ⟨7, 0, 2⟩
      (JsVal.nonString true) (by decide) (by decide) rfl⟩

theorem DIRECTIONS_empty_normalized : DIRECTIONS (normalizeDirection "") = none := by decide

/-- C5 (amended): for a registered player and a string direction, the
`POST /move` pipeline succeeds exactly when the timer has not expired, the
move budget is positive, and the lower-cased trimmed direction is one of
the eight compass directions; the empty string is rejected up front with
the 400 'Direction required' validation error (not InvalidDirection), any
other non-direction string gets InvalidDirection, an expired wall clock
gets TimerExpired, an exhausted budget gets NoMovesRemaining; on success
the new position is the torus wrap of the old position plus the
direction's unit vector and the move budget decreases by exactly one. -/
theorem moveEndpoint_rules (st : ServerState) (addr d : String)
    (timeRemaining : Nat) (pos : Int × Int) (stats : PlayerStats)
    (hsize : 0 < st.size)
    (hpos : st.playerPositions.lookup (jsToLower addr) = some pos)
    (hstats : st.playerStats.lookup (jsToLower addr) = some stats) :
    ((∃ r, (moveEndpoint st addr (some (JsVal.str d)) timeRemaining).1 = MoveResp.ok r) ↔
        timeRemaining ≠ 0 ∧ stats.movesRemaining ≠ 0 ∧
          (DIRECTIONS (normalizeDirection d)).isSome = true) ∧
      (d = "" →
        (moveEndpoint st addr (some (JsVal.str d)) timeRemaining).1 =
          MoveResp.badRequest MoveRespErr.directionRequired) ∧
      (d ≠ "" → timeRemaining = 0 →
        (moveEndpoint st addr (some (JsVal.str d)) timeRemaining).1 =
          MoveResp.badRequest MoveRespErr.timeExpired) ∧
      (d ≠ "" → timeRemaining ≠ 0 → stats.movesRemaining = 0 →
        (moveEndpoint st addr (some (JsVal.str d)) timeRemaining).1 =
          MoveResp.badRequest (MoveRespErr.fromMove MoveErr.noMovesRemaining)) ∧
      (d ≠ "" → timeRemaining ≠ 0 → stats.movesRemaining ≠ 0 →
        DIRECTIONS (normalizeDirection d) = none →
        (moveEndpoint st addr (some (JsVal.str d)) timeRemaining).1 =
          MoveResp.badRequest (MoveRespErr.fromMove MoveErr.invalidDirection)) ∧
      (∀ v : Int × Int, DIRECTIONS (normalizeDirection d) = some v → timeRemaining ≠ 0 →
        stats.movesRemaining ≠ 0 →
        (moveEndpoint st addr (some (JsVal.str d)) timeRemaining).1 =
            MoveResp.ok
              { newX := (pos.1 + v.1) % (st.size : Int),
                newY := (pos.2 + v.2) % (st.size : Int),
                tile := st.land ((pos.1 + v.1) % (st.size : Int))
                  ((pos.2 + v.2) % (st.size : Int)),
                movesRemaining := stats.movesRemaining - 1,
                minesRemaining := stats.minesRemaining,
                score := stats.score } ∧
          (moveEndpoint st addr (some (JsVal.str d)) timeRemaining).2.playerPositions.lookup
              (jsToLower addr) =
            some ((pos.1 + v.1) % (st.size : Int), (pos.2 + v.2) % (st.size : Int)) ∧
          (moveEndpoint st addr (some (JsVal.str d)) timeRemaining).2.playerStats.lookup
              (jsToLower addr) =
            some { stats with movesRemaining := stats.movesRemaining - 1 }) := by
  have hempty : d = "" →
      moveEndpoint st addr (some (JsVal.str d)) timeRemaining =
        (MoveResp.badRequest MoveRespErr.directionRequired, st) := by
    intro hd
    subst hd
    simp [moveEndpoint, jsValFalsy]
  have htime : d ≠ "" → timeRemaining = 0 →
      moveEndpoint st addr (some (JsVal.str d)) timeRemaining =
        (MoveResp.badRequest MoveRespErr.timeExpired, st) := by
    intro hd ht
    simp [moveEndpoint, jsValFalsy, hd, ht]
  have hmain : d ≠ "" → timeRemaining ≠ 0 →
      moveEndpoint st addr (some (JsVal.str d)) timeRemaining =
        match movePlayer st addr (JsVal.str d) with
        | (MoveOutcome.err e, st') => (MoveResp.badRequest (MoveRespErr.fromMove e), st')
        | (MoveOutcome.ok r, st') => (MoveResp.ok r, st') := by
    intro hd ht
    simp [moveEndpoint, jsValFalsy, hd, ht]
  have hmv_nomoves : stats.movesRemaining = 0 →
      movePlayer st addr (JsVal.str d) = (MoveOutcome.err MoveErr.noMovesRemaining, st) := by
    intro hm
    simp [movePlayer, hpos, hstats, hm]
  have hmv_invalid : stats.movesRemaining ≠ 0 → DIRECTIONS (normalizeDirection d) = none →
      movePlayer st addr (JsVal.str d) = (MoveOutcome.err MoveErr.invalidDirection, st) := by
    intro hm hdir
    simp [movePlayer, hpos, hstats, hm, hdir]
  have hmv_ok : ∀ v : Int × Int, stats.movesRemaining ≠ 0 →
      DIRECTIONS (normalizeDirection d) = some v →
      movePlayer st addr (JsVal.str d) =
        (MoveOutcome.ok
          { newX := (pos.1 + v.1) % (st.size : Int),
            newY := (pos.2 + v.2) % (st.size : Int),
            tile := st.land ((pos.1 + v.1) % (st.size : Int)) ((pos.2 + v.2) % (st.size : Int)),
            movesRemaining := stats.movesRemaining - 1,
            minesRemaining := stats.minesRemaining,
            score := stats.score },
          { st with
            playerPositions := setEntry st.playerPositions (jsToLower addr)
              ((pos.1 + v.1) % (st.size : Int), (pos.2 + v.2) % (st.size : Int))
            playerStats := setEntry st.playerStats (jsToLower addr)
              { stats with movesRemaining := stats.movesRemaining - 1 } }) := by
    intro v hm hdir
    simp only [movePlayer, hpos, hstats, hm, if_neg hm, hdir]
    simp [wrapCoordinate_eq_emod _ _ hsize]
  refine ⟨?_, ?_, ?_, ?_, ?_, ?_⟩
  · constructor
    · rintro ⟨r, hr⟩
      by_cases hd : d = ""
      · rw [hempty hd] at hr
        simp at hr
      · by_cases ht : timeRemaining = 0
        · rw [htime hd ht] at hr
          simp at hr
        · by_cases hm : stats.movesRemaining = 0
          · rw [hmain hd ht, hmv_nomoves hm] at hr
            simp at hr
          · cases hdir : DIRECTIONS (normalizeDirection d) with
            | none =>
              rw [hmain hd ht, hmv_invalid hm hdir] at hr
              simp at hr
            | some v => exact ⟨ht, hm, by simp [hdir]⟩
    · rintro ⟨ht, hm, hdir⟩
      obtain ⟨v, hv⟩ := Option.isSome_iff_exists.mp hdir
      have hd : d ≠ "" := by
        intro hd
        subst hd
        rw [DIRECTIONS_empty_normalized] at hv
        cases hv
      refine ⟨{ newX := (pos.1 + v.1) % (st.size : Int),
                newY := (pos.2 + v.2) % (st.size : Int),
                tile := st.land ((pos.1 + v.1) % (st.size : Int))
                  ((pos.2 + v.2) % (st.size : Int)),
                movesRemaining := stats.movesRemaining - 1,
                minesRemaining := stats.minesRemaining,
                score := stats.score }, ?_⟩
      rw [hmain hd ht, hmv_ok v hm hv]
  · intro hd
    rw [hempty hd]
  · intro hd ht
    rw [htime hd ht]
  · intro hd ht hm
    rw [hmain hd ht, hmv_nomoves hm]
  · intro hd ht hm hdir
    rw [hmain hd ht, hmv_invalid hm hdir]
  · intro v hv ht hm
    have hd : d ≠ "" := by
      intro hd
      subst hd
      rw [DIRECTIONS_empty_normalized] at hv
      cases hv
    rw [hmain hd ht, hmv_ok v hm hv]
    exact ⟨rfl, by simp [lookup_setEntry_self], by simp [lookup_setEntry_self]⟩

/-- Counterexample for C5 as stated: an empty direction string with a live
timer and a full move budget is rejected with the 'Direction required'
validation error, not with InvalidDirection. -/
theorem moveEndpoint_empty_direction_counterexample :
    (moveEndpoint exState "alice" (some (JsVal.str "")) 50).1 =
        MoveResp.badRequest MoveRespErr.directionRequired ∧
      (moveEndpoint exState "alice" (some (JsVal.str "")) 50).1 ≠
        MoveResp.badRequest (MoveRespErr.fromMove MoveErr.invalidDirection) ∧
      (50 : Nat) ≠ 0 ∧
      exState.playerStats.lookup (jsToLower "alice") = some ⟨0, 12, 3⟩ ∧
      (PlayerStats.mk 0 12 3).movesRemaining ≠ 0 := by
  exact ⟨by decide, by decide, by decide, by decide, by decide⟩

/-- Witness for C5: a mixed-case, trailing-space direction string moves the
player northeast with wraparound and decrements the budget to 11. -/
theorem moveEndpoint_rules_witness :
    0 < exState.size ∧
      exState.playerPositions.lookup (jsToLower "alice") = some (1, 2) ∧
      DIRECTIONS (normalizeDirection "NorthEast ") = some (1, -1) ∧
      (moveEndpoint exState "alice" (some (JsVal.str "NorthEast ")) 50).1 =
        MoveResp.ok
          { newX := 2, newY := 1, tile := Tile.t1, movesRemaining := 11,
            minesRemaining := 3, score := 0 } := by
  refine ⟨by decide, by decide, by decide, ?_⟩
  have h := ((moveEndpoint_rules exState "alice" "NorthEast " 50 (1, 2) ⟨0, 12, 3⟩
      (by decide) (by decide) (by decide)).2.2.2.2.2 (1, -1) (by decide) (by decide)
      (by decide)).1
  exact h.trans (by decide)

/-- C6 (amended): an unpaid game in GAME_FINISHED retries payout gated by
the exponential backoff min(5s × 2^(n−1), 5min) regardless of the failure
kind — the longer min(10s × 2^n, 10min) value is computed only for the
insufficient-funds log line and never gates an attempt — and once the
retry count reaches 10 the step records payoutSkipped = true and advances
the phase to PAYOUT_COMPLETE without submitting a payout transaction. -/
theorem payoutGame_backoff_and_skip (now : Nat) (scores : Option (List PayoutEntry))
    (txo : TxOutcome) (st : PayoutState) :
    (MAX_PAYOUT_RETRIES ≤ st.retryCount →
      payoutGameStep false now scores txo st =
        ⟨true, false, [], ⟨0, 0, true, GamePhase.PAYOUT_COMPLETE⟩⟩) ∧
      (st.retryCount < MAX_PAYOUT_RETRIES → 0 < st.retryCount →
        now - st.lastRetryTime < payoutRetryBackoffMs st.retryCount →
        payoutGameStep false now scores txo st = ⟨false, false, [], st⟩) ∧
      (∀ ps, scores = some ps → ps ≠ [] → st.retryCount < MAX_PAYOUT_RETRIES →
        payoutRetryBackoffMs st.retryCount ≤ now - st.lastRetryTime →
        (payoutGameStep false now scores txo st).attemptedTx = true ∧
          (payoutGameStep false now scores txo st).winners = payoutWinners ps) ∧
      (txo ≠ TxOutcome.success → ∀ ps, scores = some ps → ps ≠ [] →
        st.retryCount < MAX_PAYOUT_RETRIES →
        payoutRetryBackoffMs st.retryCount ≤ now - st.lastRetryTime →
        (payoutGameStep false now scores txo st).state.retryCount = st.retryCount + 1 ∧
          (payoutGameStep false now scores txo st).state.lastRetryTime = now) := by
  refine ⟨?_, ?_, ?_, ?_⟩
  · intro hge
    simp [payoutGameStep, hge]
  · intro hlt hpos hback
    unfold payoutGameStep
    rw [if_neg (by simp), if_neg (by omega), if_pos (by omega)]
  · intro ps hs hne hlt hback
    subst hs
    unfold payoutGameStep
    rw [if_neg (by simp), if_neg (by omega), if_neg (by omega)]
    cases txo <;> simp [hne]
  · intro htx ps hs hne hlt hback
    subst hs
    unfold payoutGameStep
    rw [if_neg (by simp), if_neg (by omega), if_neg (by omega)]
    cases txo
    · exact absurd rfl htx
    all_goals simp [hne]

/-- Counterexample for C6 as stated: after one insufficient-funds failure
the retry count is 1, and a second attempt 6 seconds later already
submits a transaction, though the claimed insufficient-funds backoff
min(10s × 2^1, 10min) = 20 s has not elapsed. -/
theorem payoutGame_insufficient_backoff_counterexample :
    (payoutGameStep false 0 (some [⟨"0xa", 1⟩]) TxOutcome.insufficientFunds
        ⟨0, 0, false, GamePhase.GAME_FINISHED⟩).state =
      ⟨1, 0, false, GamePhase.GAME_FINISHED⟩ ∧
    (payoutGameStep false 6000 (some [⟨"0xa", 1⟩]) TxOutcome.success
        ⟨1, 0, false, GamePhase.GAME_FINISHED⟩).attemptedTx = true ∧
    6000 < insufficientFundsLoggedBackoffMs 1 := by
  exact ⟨by decide, by decide, by decide⟩

/-- Witness for C6: at retry count 10 the step skips payout, setting
payoutSkipped and phase PAYOUT_COMPLETE without a transaction. -/
theorem payoutGame_backoff_and_skip_witness :
    MAX_PAYOUT_RETRIES ≤ (10 : Nat) ∧
      payoutGameStep false 123 none TxOutcome.otherError
          ⟨10, 0, false, GamePhase.GAME_FINISHED⟩ =
        ⟨true, false, [], ⟨0, 0, true, GamePhase.PAYOUT_COMPLETE⟩⟩ :=
  ⟨by decide,
    (payoutGame_backoff_and_skip 123 none TxOutcome.otherError
        ⟨10, 0, false, GamePhase.GAME_FINISHED⟩).1 (by decide)⟩

/-- C7 (amended): `isGameTooOldToStart` proceeds (false) when the commit
block is 239 blocks old and still proceeds at exactly 240 blocks; it
refuses only when the age exceeds MAX_BLOCK_AGE = 240 (241 and beyond),
in which case `startGameServer` marks the game expired (phase COMPLETE,
expired flag set) instead of starting its server. -/
theorem isGameTooOldToStart_window (c n : Nat) :
    ((n : Int) - (c : Int) = 239 → isGameTooOldToStart true c n = false) ∧
      ((n : Int) - (c : Int) = 240 → isGameTooOldToStart true c n = false) ∧
      ((n : Int) - (c : Int) = 241 → isGameTooOldToStart true c n = true) ∧
      (∀ bha : Bool, isGameTooOldToStart true c n = true →
        startGameServerGate (isGameTooOldToStart true c n) bha =
            StartGateResult.markedExpired ∧
          markGameAsExpired.phase = GamePhase.COMPLETE ∧
          markGameAsExpired.expired = true) := by
  refine ⟨?_, ?_, ?_, ?_⟩
  · intro h
    simp only [isGameTooOldToStart, MAX_BLOCK_AGE, Bool.not_true, if_false]
    simpa using by omega
  · intro h
    simp only [isGameTooOldToStart, MAX_BLOCK_AGE, Bool.not_true, if_false]
    simpa using by omega
  · intro h
    simp only [isGameTooOldToStart, MAX_BLOCK_AGE, Bool.not_true, if_false]
    simpa using by omega
  · intro bha htrue
    rw [htrue]
    exact ⟨rfl, rfl, rfl⟩

/-- Counterexample for C7 as stated: at age exactly 240 the check still
returns false, so the game is not refused there. -/
theorem isGameTooOldToStart_age240_counterexample :
    isGameTooOldToStart true 100 340 = false ∧ (340 : Int) - (100 : Int) = 240 := by
  exact ⟨by decide, by decide⟩

/-- Witness for C7 at ages 239, 240 and 241. -/
theorem isGameTooOldToStart_window_witness :
    ((239 : Int) - (0 : Int) = 239 ∧ isGameTooOldToStart true 0 239 = false) ∧
      ((240 : Int) - (0 : Int) = 240 ∧ isGameTooOldToStart true 0 240 = false) ∧
      ((241 : Int) - (0 : Int) = 241 ∧ isGameTooOldToStart true 0 241 = true) :=
  ⟨⟨by decide, (isGameTooOldToStart_window 0 239).1 (by decide)⟩,
    ⟨by decide, (isGameTooOldToStart_window 0 240).2.1 (by decide)⟩,
    ⟨by decide, (isGameTooOldToStart_window 0 241).2.2.1 (by decide)⟩⟩

/-- C8 (amended): a request to an authenticated endpoint without a bearer
token gets HTTP 401; a request whose token is present but fails
`jwt.verify` (invalid or expired) gets 403, not 401; a valid token whose
address is no longer in the player set gets 403. -/
theorem authenticateToken_statuses (verify : String → Option String)
    (isValidPlayer : String → Bool) :
    (authHttpStatus (authenticateToken none verify isValidPlayer) = 401) ∧
      (∀ h, extractBearerToken h = none →
        authHttpStatus (authenticateToken h verify isValidPlayer) = 401) ∧
      (∀ h token, extractBearerToken h = some token → verify token = none →
        authHttpStatus (authenticateToken h verify isValidPlayer) = 403) ∧
      (∀ h token addr, extractBearerToken h = some token → verify token = some addr →
        isValidPlayer addr = false →
        authHttpStatus (authenticateToken h verify isValidPlayer) = 403) := by
  refine ⟨rfl, ?_, ?_, ?_⟩
  · intro h hnone
    simp [authenticateToken, hnone, authHttpStatus]
  · intro h token htok hv
    simp [authenticateToken, htok, hv, authHttpStatus]
  · intro h token addr htok hv hnp
    simp [authenticateToken, htok, hv, hnp, authHttpStatus]

/-- Counterexample for C8 as stated: a present but invalid token receives
403, not the claimed 401. -/
theorem authenticateToken_invalid_token_counterexample :
    authHttpStatus
        (authenticateToken (some "Bearer badtoken") (fun _ => none) (fun _ => true)) =
      403 ∧ (403 : Nat) ≠ 401 := by
  exact ⟨by decide, by decide⟩

/-- Witness for C8: a missing header gets 401, an invalid token 403, and a
valid token for a removed player 403. -/
theorem authenticateToken_statuses_witness :
    authHttpStatus
        (authenticateToken none (fun _ => some "0xabc") (fun _ => true)) = 401 ∧
      (extractBearerToken (some "Bearer tok") = some "tok" ∧
        authHttpStatus
            (authenticateToken (some "Bearer tok") (fun _ => none) (fun _ => true)) = 403) ∧
      (extractBearerToken (some "Bearer tok2") = some "tok2" ∧
        authHttpStatus
            (authenticateToken (some "Bearer tok2") (fun _ => some "0xabc")
              (fun _ => false)) = 403) :=
  ⟨(authenticateToken_statuses (fun _ => some "0xabc") (fun _ => true)).1,
    ⟨by decide,
      (authenticateToken_statuses (fun _ => none) (fun _ => true)).2.2.1
        (some "Bearer tok") "tok" (by decide) rfl⟩,
    ⟨by decide,
      (authenticateToken_statuses (fun _ => some "0xabc") (fun _ => false)).2.2.2
        (some "Bearer tok2") "tok2" "0xabc" (by decide) rfl rfl⟩⟩

/-- C9 (amended): the game-progress monitor returns early whenever the
live player snapshot is empty — so a closed game with zero players is
never judged finished by the monitor and its phase is left at
GAME_RUNNING — even though the finished test itself is vacuously true on
the empty list; only a non-empty all-finished snapshot saves scores and
moves the game to GAME_FINISHED. -/
theorem monitorWrapper_empty_snapshot (phase : GamePhase) :
    allPlayersFinished [] = true ∧
      monitorGameProgressWrapperStep [] phase = ⟨phase, false⟩ ∧
      (∀ pd : List ScoreRec, pd ≠ [] → allPlayersFinished pd = true →
        monitorGameProgressWrapperStep pd phase = ⟨GamePhase.GAME_FINISHED, true⟩) := by
  refine ⟨rfl, rfl, ?_⟩
  intro pd hne hfin
  rw [monitorGameProgressWrapperStep, if_neg (by simpa using hne), if_pos hfin]

/-- Counterexample for C9 as stated: with an empty player snapshot the
monitor leaves a running game in GAME_RUNNING instead of moving it to
GAME_FINISHED. -/
theorem monitorWrapper_zero_players_counterexample :
    monitorGameProgressWrapperStep [] GamePhase.GAME_RUNNING =
        ⟨GamePhase.GAME_RUNNING, false⟩ ∧
      (monitorGameProgressWrapperStep [] GamePhase.GAME_RUNNING).phase ≠
        GamePhase.GAME_FINISHED ∧
      allPlayersFinished [] = true := by
  exact ⟨by decide, by decide, by decide⟩

/-- Witness for C9: one finished player moves a running game to
GAME_FINISHED with scores saved. -/
theorem monitorWrapper_empty_snapshot_witness :
    ([⟨"0xa", 5, 0, 0, Tile.t0⟩] : List ScoreRec) ≠ [] ∧
      allPlayersFinished [⟨"0xa", 5, 0, 0, Tile.t0⟩] = true ∧
      monitorGameProgressWrapperStep [⟨"0xa", 5, 0, 0, Tile.t0⟩] GamePhase.GAME_RUNNING =
        ⟨GamePhase.GAME_FINISHED, true⟩ :=
  ⟨by decide, by decide,
    (monitorWrapper_empty_snapshot GamePhase.GAME_RUNNING).2.2 _ (by decide) (by decide)⟩

/-- C3: the random hash is keccak256 of the commit block hash concatenated
with the reveal, and that hash — not the raw reveal — is the seed handed
to the map generator and the per-player starting-position generator;
consequently two runs over the same (commit block hash, reveal) pair
produce the same random hash, the same map and the same starting
positions, for any keccak, entropy-rehash and position-generator
functions. -/
theorem randomHash_seeds_map_and_positions
    (keccak256 rehash : List Nat → List Nat)
    (posGen : List Nat → String → Nat → Nat → Nat × Nat)
    (cbh1 rv1 cbh2 rv2 : List Nat) (gameId mapSize : Nat) (players : List String)
    (hc : cbh1 = cbh2) (hr : rv1 = rv2) :
    (startGameSetup keccak256 rehash posGen cbh1 rv1 gameId mapSize players).randomHash =
        keccak256 (cbh1 ++ rv1) ∧
      (startGameSetup keccak256 rehash posGen cbh1 rv1 gameId mapSize players).map =
        generateMap rehash (bytesToNibbles (keccak256 (cbh1 ++ rv1))) mapSize ∧
      (startGameSetup keccak256 rehash posGen cbh1 rv1 gameId mapSize players).startingPositions =
        players.map (fun a => (a, posGen (keccak256 (cbh1 ++ rv1)) a gameId mapSize)) ∧
      startGameSetup keccak256 rehash posGen cbh1 rv1 gameId mapSize players =
        startGameSetup keccak256 rehash posGen cbh2 rv2 gameId mapSize players := by
  subst hc hr
  exact ⟨rfl, rfl, rfl, rfl⟩

/-- Witness for C3 at concrete byte strings and a 5×5 map, with identity
stand-ins for the hash functions. -/
theorem randomHash_seeds_map_and_positions_witness :
    ([2, 7] : List Nat) = [2, 7] ∧ ([9] : List Nat) = [9] ∧
      (startGameSetup id id (fun _ _ _ _ => (0, 0)) [2, 7] [9] 3 5 ["0xp"]).randomHash =
        id ([2, 7] ++ [9]) ∧
      startGameSetup id id (fun _ _ _ _ => (0, 0)) [2, 7] [9] 3 5 ["0xp"] =
        startGameSetup id id (fun _ _ _ _ => (0, 0)) [2, 7] [9] 3 5 ["0xp"] := by
  refine ⟨rfl, rfl, ?_, ?_⟩
  · exact (randomHash_seeds_map_and_positions id id (fun _ _ _ _ => (0, 0))
      [2, 7] [9] [2, 7] [9] 3 5 ["0xp"] rfl rfl).1
  · exact (randomHash_seeds_map_and_positions id id (fun _ _ _ _ => (0, 0))
      [2, 7] [9] [2, 7] [9] 3 5 ["0xp"] rfl rfl).2.2.2

end VerifiableGame
